import Mathlib

/-!
Shallow embedding of `src/integrations/og-connector-higress/src/lib.rs`
(OpenGuardrails connector plugin for Higress).

Modelling conventions:
* Byte buffers (`Vec<u8>`) and request/response bodies are modelled as UTF-8
  `String`s.
* `serde_json::Value` is modelled by `Json` below.  Objects are modelled as
  sorted association lists (serde_json's default `Map` is a `BTreeMap`, so
  parsing sorts keys and duplicate keys keep the last value).  Numeric
  literals are modelled as integers (float syntax is outside the model) and
  `\uXXXX` string escapes are outside the model.
* Host-side operations (`proxy_wasm` calls) are recorded as a list of
  `HostEffect`s returned next to the updated plugin state.
* Rust panics (string-index panics, `unwrap` on `None`, `serde_json` index
  panics on non-object values) are modelled by an `Option` result where
  `none` means the code panics.
-/

namespace OG

/-- JSON value, mirroring `serde_json::Value` restricted to integer numerals.
Objects are kept as key-sorted association lists (BTreeMap model). -/
inductive Json where
  | null : Json
  | bool (b : Bool) : Json
  | num (n : Int) : Json
  | str (s : String) : Json
  | arr (elems : List Json) : Json
  | obj (fields : List (String × Json)) : Json
deriving Repr

/-- Lexicographic code-point comparison of character lists; on UTF-8 data
this coincides with Rust's byte-wise `String` ordering. -/
def lexLt : List Char → List Char → Bool
  | [], [] => false
  | [], _ :: _ => true
  | _ :: _, [] => false
  | a :: as, b :: bs =>
    if a.toNat < b.toNat then true
    else if a.toNat = b.toNat then lexLt as bs
    else false

/-- The `String` ordering used by `BTreeMap<String, _>` keys. -/
def strLt (a b : String) : Bool := lexLt a.data b.data

/-- Insert a key/value pair into a sorted association list, replacing an
existing binding (the `BTreeMap::insert` of serde_json's object map). -/
def insertField (k : String) (v : Json) : List (String × Json) → List (String × Json)
  | [] => [(k, v)]
  | (k', v') :: rest =>
    if strLt k k' then (k, v) :: (k', v') :: rest
    else if k = k' then (k, v) :: rest
    else (k', v') :: insertField k v rest

/-- Look a key up in an object's field list (`Map::get`). -/
def getField (fields : List (String × Json)) (k : String) : Option Json :=
  match fields with
  | [] => none
  | (k', v) :: rest => if k' = k then some v else getField rest k

/-- `Value::get` with a string index. -/
def Json.getKey : Json → String → Option Json
  | .obj fs, k => getField fs k
  | _, _ => none

/-- `Value::get` with a numeric index. -/
def Json.getIdx : Json → Nat → Option Json
  | .arr xs, i => xs.get? i
  | _, _ => none

/-- `Value::as_array` . -/
def Json.asArray : Json → Option (List Json)
  | .arr xs => some xs
  | _ => none

/-- `Value::as_bool`. -/
def Json.asBool : Json → Option Bool
  | .bool b => some b
  | _ => none

/-- `Value::as_str` (the `&str` is cloned to `String` by every caller). -/
def Json.asStr : Json → Option String
  | .str s => some s
  | _ => none

/-- `value[key] = v` (serde_json `IndexMut` with a string index): a `Null`
value becomes a fresh object, an object gets the key inserted/replaced, and
every other value makes the Rust code panic (`none`). -/
def Json.setKey : Json → String → Json → Option Json
  | .null, k, v => some (.obj [(k, v)])
  | .obj fs, k, v => some (.obj (insertField k v fs))
  | _, _, _ => none

end OG

namespace OG

/-! ### JSON parsing (model of `serde_json::from_slice` to a `Value`) -/

/-- Skip JSON whitespace. -/
def skipWs : List Char → List Char
  | [] => []
  | c :: cs =>
    if c = ' ' ∨ c = '\t' ∨ c = '\n' ∨ c = '\r' then skipWs cs else c :: cs

/-- Translate a character following a backslash in a JSON string;
`\uXXXX` escapes are outside the model. -/
def escChar (e : Char) : Option Char :=
  if e = '"' then some '"'
  else if e = '\\' then some '\\'
  else if e = '/' then some '/'
  else if e = 'n' then some '\n'
  else if e = 't' then some '\t'
  else if e = 'r' then some '\r'
  else if e = 'b' then some (Char.ofNat 8)
  else if e = 'f' then some (Char.ofNat 12)
  else none

/-- Parse the characters of a JSON string after the opening quote, returning
the string contents and the rest of the input after the closing quote. -/
def parseStringChars : List Char → Option (List Char × List Char)
  | [] => none
  | '"' :: rest => some ([], rest)
  | '\\' :: [] => none
  | '\\' :: e :: rest =>
    match escChar e with
    | some c => (parseStringChars rest).map (fun p => (c :: p.1, p.2))
    | none => none
  | c :: rest =>
    if c.toNat < 32 then none
    else (parseStringChars rest).map (fun p => (c :: p.1, p.2))

/-- Split a leading run of decimal digits off the input. -/
def takeDigits : List Char → (List Char × List Char)
  | [] => ([], [])
  | c :: cs =>
    if c.isDigit then
      let p := takeDigits cs
      (c :: p.1, p.2)
    else ([], c :: cs)

/-- Numeric value of a digit run. -/
def digitsToNat (ds : List Char) : Nat :=
  ds.foldl (fun n c => n * 10 + (c.toNat - 48)) 0

/-- Parse a non-negative integer literal; float syntax (a following `.`,
`e` or `E`) is outside the model and is rejected. -/
def parseNat (cs : List Char) : Option (Nat × List Char) :=
  match takeDigits cs with
  | ([], _) => none
  | (ds, rest) =>
    match rest with
    | c :: _ => if c = '.' ∨ c = 'e' ∨ c = 'E' then none else some (digitsToNat ds, rest)
    | [] => some (digitsToNat ds, [])

mutual

/-- Parse one JSON value (fuel-indexed; the fuel supplied by `parseJson` is
always sufficient for its input). -/
def parseVal : Nat → List Char → Option (Json × List Char)
  | 0, _ => none
  | fuel + 1, cs =>
    match skipWs cs with
    | [] => none
    | 'n' :: 'u' :: 'l' :: 'l' :: r => some (.null, r)
    | 't' :: 'r' :: 'u' :: 'e' :: r => some (.bool true, r)
    | 'f' :: 'a' :: 'l' :: 's' :: 'e' :: r => some (.bool false, r)
    | '"' :: r => (parseStringChars r).map (fun p => (.str (String.mk p.1), p.2))
    | '{' :: r =>
      (match skipWs r with
       | '}' :: r' => some (.obj [], r')
       | r' => parseFieldsLoop fuel r' [])
    | '[' :: r =>
      (match skipWs r with
       | ']' :: r' => some (.arr [], r')
       | r' => parseElemsLoop fuel r' [])
    | '-' :: r => (parseNat r).map (fun p => (.num (-(p.1 : Int)), p.2))
    | c :: r =>
      if c.isDigit then (parseNat (c :: r)).map (fun p => (.num (p.1 : Int), p.2))
      else none

/-- Parse the fields of an object after `{` (at least one field expected). -/
def parseFieldsLoop : Nat → List Char → List (String × Json) → Option (Json × List Char)
  | 0, _, _ => none
  | fuel + 1, cs, acc =>
    match skipWs cs with
    | '"' :: r =>
      (match parseStringChars r with
       | none => none
       | some (key, r1) =>
         match skipWs r1 with
         | ':' :: r2 =>
           (match parseVal fuel r2 with
            | none => none
            | some (v, r3) =>
              let acc' := insertField (String.mk key) v acc
              match skipWs r3 with
              | ',' :: r4 => parseFieldsLoop fuel r4 acc'
              | '}' :: r4 => some (.obj acc', r4)
              | _ => none)
         | _ => none)
    | _ => none

/-- Parse the elements of an array after `[` (at least one element expected). -/
def parseElemsLoop : Nat → List Char → List Json → Option (Json × List Char)
  | 0, _, _ => none
  | fuel + 1, cs, acc =>
    match parseVal fuel cs with
    | none => none
    | some (v, r) =>
      match skipWs r with
      | ',' :: r' => parseElemsLoop fuel r' (acc ++ [v])
      | ']' :: r' => some (.arr (acc ++ [v]), r')
      | _ => none

end

/-- Parse a complete JSON document (trailing whitespace only). -/
def parseJson (s : String) : Option Json :=
  match parseVal (2 * s.length + 2) s.data with
  | some (j, rest) => if skipWs rest = [] then some j else none
  | none => none

/-! ### JSON serialization (model of `serde_json::to_vec` / `to_string`) -/

/-- Lowercase hex digit. -/
def hexDigit (n : Nat) : Char :=
  if n < 10 then Char.ofNat (48 + n) else Char.ofNat (87 + n)

/-- Escape one character of a JSON string the way serde_json does. -/
def escapeChar (c : Char) : String :=
  if c = '"' then "\\\""
  else if c = '\\' then "\\\\"
  else if c = '\n' then "\\n"
  else if c = '\t' then "\\t"
  else if c = '\r' then "\\r"
  else if c = Char.ofNat 8 then "\\b"
  else if c = Char.ofNat 12 then "\\f"
  else if c.toNat < 32 then
    String.mk ['\\', 'u', '0', '0', hexDigit (c.toNat / 16), hexDigit (c.toNat % 16)]
  else String.singleton c

/-- Escape a whole string. -/
def escapeStr (s : String) : String :=
  s.data.foldl (fun acc c => acc ++ escapeChar c) ""

mutual

/-- Compact serialization of a JSON value (serde_json's `to_string`). -/
def serialize : Json → String
  | .null => "null"
  | .bool true => "true"
  | .bool false => "false"
  | .num n => toString n
  | .str s => "\"" ++ escapeStr s ++ "\""
  | .arr xs => "[" ++ serializeElems xs ++ "]"
  | .obj fs => "\x7b" ++ serializeFields fs ++ "\x7d"

/-- Comma-separated serialization of array elements. -/
def serializeElems : List Json → String
  | [] => ""
  | [x] => serialize x
  | x :: y :: xs => serialize x ++ "," ++ serializeElems (y :: xs)

/-- Comma-separated serialization of object fields. -/
def serializeFields : List (String × Json) → String
  | [] => ""
  | [(k, v)] => "\"" ++ escapeStr k ++ "\":" ++ serialize v
  | (k, v) :: f :: fs => "\"" ++ escapeStr k ++ "\":" ++ serialize v ++ "," ++ serializeFields (f :: fs)

end

end OG

namespace OG

/-! ### OG API wire types (`lib.rs` `OGInputResponse` / `OGOutputResponse`)
and their serde decode, modelled as parse-to-`Json` followed by a struct
decode with serde's `#[serde(default)]` semantics. -/

/-- `BlockResponse` (u16 `code` modelled as a range-checked `Nat`). -/
structure BlockResponse where
  code : Nat
  content_type : String
  body : String
deriving Repr, DecidableEq

/-- `ReplaceResponse`. -/
structure ReplaceResponse where
  code : Nat
  content_type : String
  body : String
deriving Repr, DecidableEq

/-- `ProxyResponse`. -/
structure ProxyResponse where
  code : Nat
  content_type : String
  body : String
deriving Repr, DecidableEq

/-- `PrivateModelInfo`. -/
structure PrivateModelInfo where
  api_base_url : String
  api_key : Option String
  model_name : String
  provider : Option String
  higress_cluster : Option String
deriving Repr, DecidableEq

/-- Decoded `/v1/gateway/process-input` response (`lib.rs` `OGInputResponse`). -/
structure OGInputResponse where
  action : String
  request_id : String
  session_id : Option String
  restore_mapping : Option (List (String × String))
  detection_result : Json
  block_response : Option BlockResponse
  replace_response : Option ReplaceResponse
  anonymized_messages : Option (List Json)
  proxy_response : Option ProxyResponse
  private_model : Option PrivateModelInfo
  bypass_token : Option String
  bypass_header : Option String
deriving Repr

/-- Decoded `/v1/gateway/process-output` response (`lib.rs` `OGOutputResponse`). -/
structure OGOutputResponse where
  action : String
  block_response : Option BlockResponse
  restored_content : Option String
  anonymized_content : Option String
deriving Repr, DecidableEq

/-- Decode a JSON value as a Rust `String`. -/
def decodeString : Json → Option String
  | .str s => some s
  | _ => none

/-- Decode a JSON value as a `u16`. -/
def decodeU16 : Json → Option Nat
  | .num n => if 0 ≤ n ∧ n < 65536 then some n.toNat else none
  | _ => none

/-- Decode a JSON value as `Vec<serde_json::Value>`. -/
def decodeJsonArray : Json → Option (List Json)
  | .arr xs => some xs
  | _ => none

/-- Decode a JSON value as `HashMap<String, String>`. -/
def decodeStringMap : Json → Option (List (String × String))
  | .obj fs => fs.foldr (fun kv acc =>
      match kv.2, acc with
      | .str v, some rest => some ((kv.1, v) :: rest)
      | _, _ => none) (some [])
  | _ => none

/-- serde semantics of a `#[serde(default)] Option<T>` field: a missing or
`null` field is `None`; a present field must decode. -/
def decodeOptField {α : Type} (fs : List (String × Json)) (k : String)
    (dec : Json → Option α) : Option (Option α) :=
  match getField fs k with
  | none => some none
  | some .null => some none
  | some v => (dec v).map some

/-- serde semantics of a required field: it must be present and decode. -/
def decodeReqField {α : Type} (fs : List (String × Json)) (k : String)
    (dec : Json → Option α) : Option α :=
  (getField fs k).bind dec

/-- Decode `BlockResponse` (all three fields required). -/
def decodeBlockResponse : Json → Option BlockResponse
  | .obj fs => do
    let code ← decodeReqField fs "code" decodeU16
    let ct ← decodeReqField fs "content_type" decodeString
    let body ← decodeReqField fs "body" decodeString
    pure ⟨code, ct, body⟩
  | _ => none

/-- Decode `ReplaceResponse`. -/
def decodeReplaceResponse : Json → Option ReplaceResponse
  | .obj fs => do
    let code ← decodeReqField fs "code" decodeU16
    let ct ← decodeReqField fs "content_type" decodeString
    let body ← decodeReqField fs "body" decodeString
    pure ⟨code, ct, body⟩
  | _ => none

/-- Decode `ProxyResponse`. -/
def decodeProxyResponse : Json → Option ProxyResponse
  | .obj fs => do
    let code ← decodeReqField fs "code" decodeU16
    let ct ← decodeReqField fs "content_type" decodeString
    let body ← decodeReqField fs "body" decodeString
    pure ⟨code, ct, body⟩
  | _ => none

/-- Decode `PrivateModelInfo` (`api_base_url` and `model_name` required,
the `Option` fields default to `None`). -/
def decodePrivateModelInfo : Json → Option PrivateModelInfo
  | .obj fs => do
    let base ← decodeReqField fs "api_base_url" decodeString
    let key ← decodeOptField fs "api_key" decodeString
    let name ← decodeReqField fs "model_name" decodeString
    let prov ← decodeOptField fs "provider" decodeString
    let cluster ← decodeOptField fs "higress_cluster" decodeString
    pure ⟨base, key, name, prov, cluster⟩
  | _ => none

/-- Decode `OGInputResponse`: `action` and `request_id` are required, the
rest carry `#[serde(default)]`; `detection_result` is a raw `Value`
defaulting to `Null`. -/
def decodeInputResponse : Json → Option OGInputResponse
  | .obj fs => do
    let action ← decodeReqField fs "action" decodeString
    let request_id ← decodeReqField fs "request_id" decodeString
    let session_id ← decodeOptField fs "session_id" decodeString
    let restore_mapping ← decodeOptField fs "restore_mapping" decodeStringMap
    let detection_result := (getField fs "detection_result").getD .null
    let block_response ← decodeOptField fs "block_response" decodeBlockResponse
    let replace_response ← decodeOptField fs "replace_response" decodeReplaceResponse
    let anonymized_messages ← decodeOptField fs "anonymized_messages" decodeJsonArray
    let proxy_response ← decodeOptField fs "proxy_response" decodeProxyResponse
    let private_model ← decodeOptField fs "private_model" decodePrivateModelInfo
    let bypass_token ← decodeOptField fs "bypass_token" decodeString
    let bypass_header ← decodeOptField fs "bypass_header" decodeString
    pure ⟨action, request_id, session_id, restore_mapping, detection_result,
          block_response, replace_response, anonymized_messages, proxy_response,
          private_model, bypass_token, bypass_header⟩
  | _ => none

/-- Decode `OGOutputResponse`: only `action` is required. -/
def decodeOutputResponse : Json → Option OGOutputResponse
  | .obj fs => do
    let action ← decodeReqField fs "action" decodeString
    let block_response ← decodeOptField fs "block_response" decodeBlockResponse
    let restored_content ← decodeOptField fs "restored_content" decodeString
    let anonymized_content ← decodeOptField fs "anonymized_content" decodeString
    pure ⟨action, block_response, restored_content, anonymized_content⟩
  | _ => none

end OG

namespace OG

/-! ### Plugin state, configuration and host effects -/

/-- `OGConnectorConfig` (resolved configuration record). -/
structure OGConnectorConfig where
  og_cluster : String
  og_base_url : String
  og_api_key : String
  application_id : String
  timeout_ms : Nat
  enable_input_detection : Bool
  enable_output_detection : Bool
deriving Repr, DecidableEq

/-- `ConnectorState` (`lib.rs`). -/
inductive ConnectorState where
  | Initial
  | WaitingInputResponse
  | WaitingOutputResponse
  | Done
deriving Repr, DecidableEq

/-- Per-exchange plugin state (`struct OGConnector`, minus the log-only
`context_id`). -/
structure OGConnector where
  config : Option OGConnectorConfig
  state : ConnectorState
  request_body : String
  response_body : String
  session_id : Option String
  restore_mapping : Option (List (String × String))
  is_streaming : Bool
  input_messages : Option (List Json)
  bypassed : Bool
  pending_proxy_response : Option ProxyResponse
  response_sent : Bool
  consumer_id : Option String
deriving Repr

/-- Observable host operations issued by the plugin, in program order. -/
inductive HostEffect where
  | setHttpRequestBody (body : String)
  | setHttpResponseBody (body : String)
  | sendHttpResponse (status : Nat) (contentType : String) (body : String)
  | resumeHttpRequest
  | resumeHttpResponse
  | setHttpRequestHeader (name : String) (value : Option String)
  | setHttpResponseHeader (name : String) (value : Option String)
  | setProperty (path : String) (value : String)
  | dispatchHttpCall (cluster : String) (authority : String) (path : String)
      (body : String) (timeoutMs : Nat) (consumer : Option String)
deriving Repr, DecidableEq

/-- `proxy_wasm::types::Action`. -/
inductive Action where
  | Continue
  | Pause
deriving Repr, DecidableEq

/-- `proxy_wasm::types::DataAction`. -/
inductive DataAction where
  | Continue
  | StopIterationAndBuffer
deriving Repr, DecidableEq

/-- `proxy_wasm::types::HeaderAction`. -/
inductive HeaderAction where
  | Continue
  | StopIteration
deriving Repr, DecidableEq

/-- The freshly created per-request context (`create_http_context`). -/
def initConnector (cfg : Option OGConnectorConfig) : OGConnector :=
  { config := cfg
    state := .Initial
    request_body := ""
    response_body := ""
    session_id := none
    restore_mapping := none
    is_streaming := false
    input_messages := none
    bypassed := false
    pending_proxy_response := none
    response_sent := false
    consumer_id := none }

/-! ### Pure helpers of `impl OGConnector` -/

/-- `send_local_response`: mark the response sent, terminate, clear the
buffered request body, then send the local response. -/
def send_local_response (c : OGConnector) (statusCode : Nat) (ct : String)
    (body : String) : OGConnector × List HostEffect :=
  ({ c with response_sent := true, state := .Done },
   [.setHttpRequestBody "", .sendHttpResponse statusCode ct body])

/-- `str::trim_start_matches`: repeatedly strip a prefix (fuel-indexed by the
string length, which bounds the number of removals). -/
def stripPrefixAll (p : String) : Nat → String → String
  | 0, s => s
  | fuel + 1, s =>
    if p ≠ "" ∧ s.startsWith p then stripPrefixAll p fuel (s.drop p.length) else s

/-- Authority for the OG call: `og_base_url` with `http://` then `https://`
stripped. -/
def og_host (cfg : OGConnectorConfig) : String :=
  let s1 := stripPrefixAll "http://" cfg.og_base_url.length cfg.og_base_url
  stripPrefixAll "https://" s1.length s1

/-- Result of `call_og_api`: the dispatch attempt (if any) and whether
`dispatch_http_call` returned `Ok`.  `dispatchOk` is the host's verdict on
the dispatch. -/
structure CallResult where
  effects : List HostEffect
  ok : Bool
deriving Repr, DecidableEq

/-- `call_og_api`: with no config it fails without dispatching; otherwise it
dispatches to `og_cluster` with authority `og_host` and the configured
timeout (headers carry the bearer key and, when known, the consumer id). -/
def call_og_api (c : OGConnector) (path : String) (body : String)
    (dispatchOk : Bool) : CallResult :=
  match c.config with
  | none => ⟨[], false⟩
  | some cfg =>
    ⟨[.dispatchHttpCall cfg.og_cluster (og_host cfg) path body cfg.timeout_ms c.consumer_id],
     dispatchOk⟩

/-- `parse_messages`: the `messages` array of a JSON body. -/
def parse_messages (body : String) : Option (List Json) :=
  (parseJson body).bind fun j => (j.getKey "messages").bind Json.asArray

/-- `check_streaming`: the `stream` boolean of a JSON body, false on any
failure. -/
def check_streaming (body : String) : Bool :=
  match parseJson body with
  | some j => ((j.getKey "stream").bind Json.asBool).getD false
  | none => false

/-- Serialization of `OGInputRequest` in serde field order
(`application_id` omitted when `None`). -/
def serializeInputRequest (messages : List Json) (application_id : Option String) : String :=
  "\x7b\"messages\":" ++ serialize (.arr messages) ++
    (match application_id with
     | none => ""
     | some a => ",\"application_id\":" ++ serialize (.str a)) ++ "\x7d"

/-- `build_input_request` (`none` models the `unwrap` panic on a missing
config). -/
def build_input_request (c : OGConnector) (messages : List Json) : Option String :=
  c.config.map fun cfg =>
    serializeInputRequest messages
      (if cfg.application_id = "" then none else some cfg.application_id)

/-- The fields of `OGOutputRequest` before serialization. -/
structure OGOutputRequestR where
  content : String
  session_id : Option String
  restore_mapping : Option (List (String × String))
  application_id : Option String
  messages : Option (List Json)
deriving Repr

/-- Optional serialized field, preceded by a comma when present. -/
def optionalField (name : String) (v : Option Json) : String :=
  match v with
  | none => ""
  | some j => ",\"" ++ name ++ "\":" ++ serialize j

/-- Serialization of `OGOutputRequest` in serde field order, optional fields
omitted when `None` (the `HashMap` is serialized in key-sorted order). -/
def serializeOutputRequest (r : OGOutputRequestR) : String :=
  "\x7b\"content\":" ++ serialize (.str r.content) ++
    optionalField "session_id" (r.session_id.map Json.str) ++
    optionalField "restore_mapping"
      (r.restore_mapping.map fun m =>
        Json.obj (m.foldl (fun acc kv => insertField kv.1 (.str kv.2) acc) [])) ++
    optionalField "application_id" (r.application_id.map Json.str) ++
    optionalField "messages" (r.messages.map Json.arr) ++ "\x7d"

/-- `build_output_request`, record level: the envelope carries the stored
`session_id`, `restore_mapping` and `input_messages` of the exchange. -/
def build_output_request_record (c : OGConnector) (content : String) :
    Option OGOutputRequestR :=
  c.config.map fun cfg =>
    ⟨content, c.session_id, c.restore_mapping,
     (if cfg.application_id = "" then none else some cfg.application_id),
     c.input_messages⟩

/-- `build_output_request` (`none` models the `unwrap` panic on a missing
config). -/
def build_output_request (c : OGConnector) (content : String) : Option String :=
  (build_output_request_record c content).map serializeOutputRequest

/-- `rebuild_request_body`: on a parseable body, `json["messages"] = ...`
then re-serialize (`none` = the serde index panic on a non-object body);
on an unparseable body, the original bytes. -/
def rebuild_request_body (c : OGConnector) (messages : List Json) : Option String :=
  match parseJson c.request_body with
  | some j =>
    match j.setKey "messages" (.arr messages) with
    | some j' => some (serialize j')
    | none => none
  | none => some c.request_body

/-- The in-place update of `choices[0].message.content` shared by
`rebuild_response_body` and `rebuild_proxy_response_body`; `none` models
the serde index panic when `message` is neither object nor null. -/
def setMessageContent (j : Json) (newContent : String) : Option Json :=
  match j with
  | .obj fs =>
    match getField fs "choices" with
    | some (.arr xs) =>
      (match xs.get? 0 with
       | none => some j
       | some first =>
         match first with
         | .obj ffs =>
           (match getField ffs "message" with
            | none => some j
            | some msg =>
              match msg.setKey "content" (.str newContent) with
              | some msg' =>
                some (.obj (insertField "choices"
                  (.arr (xs.set 0 (.obj (insertField "message" msg' ffs)))) fs))
              | none => none)
         | _ => some j)
    | _ => some j
  | _ => some j

/-- `rebuild_response_body`. -/
def rebuild_response_body (c : OGConnector) (newContent : String) : Option String :=
  match parseJson c.response_body with
  | some j => (setMessageContent j newContent).map serialize
  | none => some c.response_body

/-- `rebuild_proxy_response_body`. -/
def rebuild_proxy_response_body (original : String) (newContent : String) : Option String :=
  match parseJson original with
  | some j => (setMessageContent j newContent).map serialize
  | none => some original

/-- The `choices[0].message.content` string of a JSON value. -/
def extractContentJson (j : Json) : Option String :=
  ((((j.getKey "choices").bind fun ch => ch.getIdx 0).bind
    fun first => first.getKey "message").bind
    fun msg => msg.getKey "content").bind Json.asStr

/-- `extract_response_content` (over the buffered upstream response body). -/
def extract_response_content (c : OGConnector) : Option String :=
  (parseJson c.response_body).bind extractContentJson

/-- `extract_content_from_body` (over a proxy response body). -/
def extract_content_from_body (body : String) : Option String :=
  (parseJson body).bind extractContentJson

end OG

namespace OG

/-! ### Verdict handlers -/

/-- `handle_input_response`: decode the input verdict and act on it.
`dispatchOk` is the host's verdict on the nested `process-output` dispatch
of the `proxy_response` branch; `none` models a panic. -/
def handle_input_response (c : OGConnector) (body : String) (dispatchOk : Bool) :
    Option (OGConnector × List HostEffect × Action) :=
  match (parseJson body).bind decodeInputResponse with
  | none => some (c, [.resumeHttpRequest], .Continue)
  | some r =>
    let c1 := { c with session_id := r.session_id, restore_mapping := r.restore_mapping }
    if r.action = "block" then
      match r.block_response with
      | some br =>
        let s := send_local_response c1 br.code br.content_type br.body
        some (s.1, s.2, .Pause)
      | none => some ({ c1 with state := .Done }, [], .Pause)
    else if r.action = "replace" then
      match r.replace_response with
      | some rr =>
        let s := send_local_response c1 rr.code rr.content_type rr.body
        some (s.1, s.2, .Pause)
      | none => some ({ c1 with state := .Done }, [], .Pause)
    else if r.action = "anonymize" then
      let c2 := { c1 with state := .Initial }
      match r.anonymized_messages with
      | some msgs =>
        (match rebuild_request_body c2 msgs with
         | some nb => some (c2, [.setHttpRequestBody nb, .resumeHttpRequest], .Continue)
         | none => none)
      | none => some (c2, [.resumeHttpRequest], .Continue)
    else if r.action = "proxy_response" then
      match r.proxy_response with
      | some p =>
        (match c1.config with
         | none => none
         | some cfg =>
           if cfg.enable_output_detection then
             match extract_content_from_body p.body with
             | some content =>
               let c2 := { c1 with pending_proxy_response := some p }
               (match build_output_request c2 content with
                | none => none
                | some reqB =>
                  let call := call_og_api c2 "/v1/gateway/process-output" reqB dispatchOk
                  if call.ok then
                    some ({ c2 with state := .WaitingOutputResponse }, call.effects, .Pause)
                  else
                    let c3 := { c2 with pending_proxy_response := none }
                    let s := send_local_response c3 p.code p.content_type p.body
                    some (s.1, call.effects ++ s.2, .Pause))
             | none =>
               let s := send_local_response c1 p.code p.content_type p.body
               some (s.1, s.2, .Pause)
           else
             let s := send_local_response c1 p.code p.content_type p.body
             some (s.1, s.2, .Pause))
      | none => some ({ c1 with state := .Done }, [], .Pause)
    else if r.action = "switch_private_model" then
      let bypassEff : List HostEffect :=
        match r.bypass_token with
        | some tok =>
          [.setHttpRequestHeader (r.bypass_header.getD "X-OG-Bypass-Token") (some tok)]
        | none => []
      match r.private_model with
      | some pm =>
        let authEff : List HostEffect :=
          match pm.api_key with
          | some k => [.setHttpRequestHeader "authorization" (some ("Bearer " ++ k))]
          | none => []
        let provEff : List HostEffect :=
          match pm.provider with
          | some pr => [.setHttpRequestHeader "x-higress-llm-provider" (some pr)]
          | none => []
        let modelEff : List HostEffect :=
          [.setHttpRequestHeader "x-higress-llm-model" (some pm.model_name)]
        let clusterEff : List HostEffect :=
          match pm.higress_cluster with
          | some cl => [.setProperty "cluster_name" cl]
          | none => []
        let bodyEffs : Option (List HostEffect) :=
          if c1.request_body = "" then some []
          else
            match parseJson c1.request_body with
            | some j =>
              (match j.setKey "model" (.str pm.model_name) with
               | some j' => some [.setHttpRequestBody (serialize j')]
               | none => none)
            | none => some []
        (match bodyEffs with
         | none => none
         | some bEff =>
           some ({ c1 with state := .Initial },
                 bypassEff ++ authEff ++ provEff ++ modelEff ++ clusterEff ++ bEff ++
                   [.resumeHttpRequest],
                 .Continue))
      | none =>
        some ({ c1 with state := .Initial }, bypassEff ++ [.resumeHttpRequest], .Continue)
    else
      some ({ c1 with state := .Initial }, [.resumeHttpRequest], .Continue)

/-- `handle_output_response`: decode the output verdict; with a pending
proxy response the verdict is applied to that response and it is sent
locally, otherwise the buffered upstream response is (possibly) modified
and resumed. -/
def handle_output_response (c : OGConnector) (body : String) :
    Option (OGConnector × List HostEffect × Action) :=
  match (parseJson body).bind decodeOutputResponse with
  | none =>
    match c.pending_proxy_response with
    | some p =>
      let s := send_local_response { c with pending_proxy_response := none }
        p.code p.content_type p.body
      some (s.1, s.2, .Pause)
    | none => some (c, [.resumeHttpResponse], .Continue)
  | some r =>
    match c.pending_proxy_response with
    | some p =>
      let c1 := { c with pending_proxy_response := none }
      if r.action = "block" then
        match r.block_response with
        | some br =>
          let s := send_local_response c1 br.code br.content_type br.body
          some (s.1, s.2, .Pause)
        | none =>
          let s := send_local_response c1 p.code p.content_type p.body
          some (s.1, s.2, .Pause)
      else if r.action = "restore" then
        match r.restored_content with
        | some rc =>
          (match rebuild_proxy_response_body p.body rc with
           | some nb =>
             let s := send_local_response c1 p.code p.content_type nb
             some (s.1, s.2, .Pause)
           | none => none)
        | none =>
          let s := send_local_response c1 p.code p.content_type p.body
          some (s.1, s.2, .Pause)
      else
        let s := send_local_response c1 p.code p.content_type p.body
        some (s.1, s.2, .Pause)
    | none =>
      let modEffs : Option (List HostEffect) :=
        if r.action = "block" then
          some (match r.block_response with
                | some br => [.setHttpResponseBody br.body]
                | none => [])
        else if r.action = "anonymize" then
          match r.anonymized_content with
          | some a => (rebuild_response_body c a).map fun nb => [.setHttpResponseBody nb]
          | none => some []
        else if r.action = "restore" then
          match r.restored_content with
          | some rc => (rebuild_response_body c rc).map fun nb => [.setHttpResponseBody nb]
          | none => some []
        else some []
      match modEffs with
      | none => none
      | some eff => some (c, eff ++ [.resumeHttpResponse], .Continue)

/-! ### Host callbacks -/

/-- `on_http_call_response`.  `statusHdr` is the `:status` header of the
moderation call (absent on dispatch timeout/failure), `body` the call's
response body (empty when the host returns none). -/
def on_http_call_response (c : OGConnector) (statusHdr : Option String)
    (body : String) (dispatchOk : Bool) : Option (OGConnector × List HostEffect) :=
  match statusHdr with
  | some status =>
    if status ≠ "200" then
      match c.state with
      | .WaitingInputResponse => some ({ c with state := .Initial }, [.resumeHttpRequest])
      | .WaitingOutputResponse =>
        (match c.pending_proxy_response with
         | some p =>
           some (send_local_response { c with pending_proxy_response := none }
             p.code p.content_type p.body)
         | none => some ({ c with state := .Done }, [.resumeHttpResponse]))
      | _ => some (c, [])
    else
      match c.state with
      | .WaitingInputResponse =>
        (handle_input_response c body dispatchOk).map fun t => (t.1, t.2.1)
      | .WaitingOutputResponse =>
        (handle_output_response { c with state := .Done } body).map fun t => (t.1, t.2.1)
      | _ => some (c, [])
  | none => some (c, [])

/-- The request headers the plugin reads (by name). -/
structure RequestHeadersEvent where
  bypass_token : Option String
  x_mse_consumer : Option String
  x_mse_consumer_mixed : Option String
deriving Repr, DecidableEq

/-- `on_http_request_headers`. -/
def on_http_request_headers (c : OGConnector) (h : RequestHeadersEvent) :
    OGConnector × List HostEffect × HeaderAction :=
  match c.config with
  | none => (c, [], .Continue)
  | some _ =>
    match h.bypass_token with
    | some _ =>
      ({ c with bypassed := true },
       [.setHttpRequestHeader "X-OG-Bypass-Token" none], .Continue)
    | none =>
      ({ c with consumer_id := h.x_mse_consumer.orElse fun _ => h.x_mse_consumer_mixed },
       [.setHttpRequestHeader "content-length" none], .StopIteration)

/-- `on_http_request_body`.  `buffered` is what `get_http_request_body`
returns once the end of stream arrived. -/
def on_http_request_body (c : OGConnector) (endOfStream : Bool)
    (buffered : Option String) (dispatchOk : Bool) :
    Option (OGConnector × List HostEffect × DataAction) :=
  if c.bypassed then some (c, [], .Continue)
  else if ¬ endOfStream then some (c, [], .StopIterationAndBuffer)
  else
    let c1 :=
      match buffered with
      | some b => { c with request_body := b }
      | none => c
    match c1.config with
    | none => some (c1, [], .Continue)
    | some cfg =>
      if c1.request_body = "" then some (c1, [], .Continue)
      else if ¬ cfg.enable_input_detection then some (c1, [], .Continue)
      else
        match parse_messages c1.request_body with
        | none => some (c1, [], .Continue)
        | some msgs =>
          let c2 := { c1 with input_messages := some msgs,
                              is_streaming := check_streaming c1.request_body }
          match build_input_request c2 msgs with
          | none => none
          | some reqB =>
            let call := call_og_api c2 "/v1/gateway/process-input" reqB dispatchOk
            if call.ok then
              some ({ c2 with state := .WaitingInputResponse }, call.effects,
                    .StopIterationAndBuffer)
            else
              some (c2, call.effects, .Continue)

/-- `on_http_response_headers`. -/
def on_http_response_headers (c : OGConnector) :
    OGConnector × List HostEffect × HeaderAction :=
  if c.response_sent then (c, [], .Continue)
  else (c, [.setHttpResponseHeader "content-length" none], .Continue)

/-- `on_http_response_body`. -/
def on_http_response_body (c : OGConnector) (endOfStream : Bool)
    (buffered : Option String) (dispatchOk : Bool) :
    Option (OGConnector × List HostEffect × DataAction) :=
  if c.response_sent then some (c, [], .Continue)
  else if c.state = .Done then some (c, [], .Continue)
  else if c.bypassed then some (c, [], .Continue)
  else if ¬ endOfStream then some (c, [], .StopIterationAndBuffer)
  else
    let c1 :=
      match buffered with
      | some b => { c with response_body := b }
      | none => c
    match c1.config with
    | none => some (c1, [], .Continue)
    | some cfg =>
      if ¬ cfg.enable_output_detection ∧ c1.session_id = none ∧ c1.restore_mapping = none then
        some (c1, [], .Continue)
      else
        match extract_response_content c1 with
        | none => some (c1, [], .Continue)
        | some content =>
          match build_output_request c1 content with
          | none => none
          | some reqB =>
            let call := call_og_api c1 "/v1/gateway/process-output" reqB dispatchOk
            if call.ok then
              some ({ c1 with state := .WaitingOutputResponse }, call.effects,
                    .StopIterationAndBuffer)
            else
              some (c1, call.effects, .Continue)

end OG

namespace OG

/-! ### Host protocol model

One exchange is driven by a sequence of host events.  The host guarantees:
request headers arrive first and once; request body chunks stop at the
end-of-stream chunk; the upstream response body arrives only after the
request completed; a moderation-call callback fires only while a call is in
flight.  `dispatchOk` on an event is the host's verdict on any
`dispatch_http_call` the handler performs while processing it. -/

/-- A host event delivered to the per-exchange context. -/
inductive HostEvent where
  | reqHeaders (h : RequestHeadersEvent)
  | reqBody (endOfStream : Bool) (buffered : Option String) (dispatchOk : Bool)
  | rspHeaders
  | rspBody (endOfStream : Bool) (buffered : Option String) (dispatchOk : Bool)
  | callResponse (statusHdr : Option String) (body : String) (dispatchOk : Bool)
deriving Repr

/-- The exchange plus the host-side bookkeeping of the protocol. -/
structure Harness where
  conn : OGConnector
  hdrsSeen : Bool
  reqDone : Bool
  callInFlight : Bool
deriving Repr

/-- Start of an exchange. -/
def initHarness (cfg : Option OGConnectorConfig) : Harness :=
  ⟨initConnector cfg, false, false, false⟩

/-- Which events the host protocol can deliver in a given harness state. -/
def eventAllowed (h : Harness) : HostEvent → Prop
  | .reqHeaders _ => h.hdrsSeen = false
  | .reqBody _ _ _ => h.hdrsSeen = true ∧ h.reqDone = false
  | .rspHeaders => True
  | .rspBody _ _ _ => h.reqDone = true
  | .callResponse _ _ _ => h.callInFlight = true

/-- Whether an effect is an outbound call dispatch. -/
def isDispatch : HostEffect → Bool
  | .dispatchHttpCall .. => true
  | _ => false

/-- A dispatch was attempted and the host accepted it. -/
def dispatchSucceeded (effs : List HostEffect) (dispatchOk : Bool) : Bool :=
  effs.any isDispatch && dispatchOk

/-- Deliver one event (`none` models a panic inside the handler). -/
def stepHarness (h : Harness) : HostEvent → Option (Harness × List HostEffect)
  | .reqHeaders hdrs =>
    let t := on_http_request_headers h.conn hdrs
    some ({ h with conn := t.1, hdrsSeen := true }, t.2.1)
  | .reqBody eos buf dOk =>
    (on_http_request_body h.conn eos buf dOk).map fun t =>
      ({ conn := t.1, hdrsSeen := h.hdrsSeen, reqDone := h.reqDone || eos,
         callInFlight := h.callInFlight || dispatchSucceeded t.2.1 dOk }, t.2.1)
  | .rspHeaders =>
    let t := on_http_response_headers h.conn
    some ({ h with conn := t.1 }, t.2.1)
  | .rspBody eos buf dOk =>
    (on_http_response_body h.conn eos buf dOk).map fun t =>
      ({ h with conn := t.1
                callInFlight := h.callInFlight || dispatchSucceeded t.2.1 dOk }, t.2.1)
  | .callResponse st body dOk =>
    (on_http_call_response h.conn st body dOk).map fun t =>
      ({ h with conn := t.1, callInFlight := dispatchSucceeded t.2 dOk }, t.2)

/-- The harness states an exchange can reach under the host protocol. -/
inductive Reachable : Harness → Prop
  | init (cfg : Option OGConnectorConfig) : Reachable (initHarness cfg)
  | step (h : Harness) (ev : HostEvent) (h' : Harness) (effs : List HostEffect) :
      Reachable h → eventAllowed h ev → stepHarness h ev = some (h', effs) →
      Reachable h'

/-- The state an event leads to (identity on a disallowed shape or panic);
used to write concrete traces compactly. -/
def stepConn (h : Harness) (ev : HostEvent) : Harness :=
  match stepHarness h ev with
  | some t => t.1
  | none => h

/-- The effects an event emits. -/
def stepEffs (h : Harness) (ev : HostEvent) : List HostEffect :=
  match stepHarness h ev with
  | some t => t.2
  | none => []

/-! ### API-key masking (`on_configure` step 5d/6b and `call_og_api`)

Rust byte-index slicing of a `&str` panics when the index is not a
character boundary; `takeBytes`/`dropBytes` return `none` exactly then. -/

/-- Byte length of a string (`str::len`). -/
def utf8Len (s : String) : Nat :=
  s.data.foldl (fun n c => n + c.utf8Size) 0

/-- `&s[..n]` on the character list: `none` when `n` is not a character
boundary (the Rust slice panics). -/
def takeBytes : List Char → Nat → Option (List Char)
  | _, 0 => some []
  | [], _ + 1 => none
  | c :: cs, n + 1 =>
    if c.utf8Size ≤ n + 1 then (takeBytes cs (n + 1 - c.utf8Size)).map (c :: ·)
    else none

/-- `&s[n..]` on the character list: `none` when `n` is not a character
boundary. -/
def dropBytes : List Char → Nat → Option (List Char)
  | cs, 0 => some cs
  | [], _ + 1 => none
  | c :: cs, n + 1 =>
    if c.utf8Size ≤ n + 1 then dropBytes cs (n + 1 - c.utf8Size)
    else none

/-- The key-masking expression of `on_configure` (steps 5d and 6b):
`format!("{}...{}", &key[..6], &key[key.len()-4..])` when `key.len() > 10`,
else `"***"`; `none` models the slice panic. -/
def mask_api_key_configure (key : String) : Option String :=
  if utf8Len key > 10 then
    match takeBytes key.data 6, dropBytes key.data (utf8Len key - 4) with
    | some a, some b => some (String.mk a ++ "..." ++ String.mk b)
    | _, _ => none
  else some "***"

/-- The key-masking expression of `call_og_api`:
`format!("{}...{}", &key[..10], &key[key.len()-4..])` when `key.len() > 14`,
else `"***"`; `none` models the slice panic. -/
def mask_api_key_call (key : String) : Option String :=
  if utf8Len key > 14 then
    match takeBytes key.data 10, dropBytes key.data (utf8Len key - 4) with
    | some a, some b => some (String.mk a ++ "..." ++ String.mk b)
    | _, _ => none
  else some "***"

end OG

namespace OG

/-! ### Concrete fixtures (used by counterexamples and witnesses) -/

/-- A representative resolved configuration. -/
def cfgT : OGConnectorConfig :=
  ⟨"outbound|5002||og.dns", "http://og.dns:5002", "sk-test-api-key-123456", "",
   5000, true, true⟩

/-- Request headers without bypass or consumer headers. -/
def hdrPlain : RequestHeadersEvent := ⟨none, none, none⟩

/-- A chat request body with one user message. -/
def reqBodyMsgs : String :=
  "\x7b\"messages\":[\x7b\"role\":\"user\",\"content\":\"hi\"\x7d]\x7d"

/-- An input verdict blocking with a payload. -/
def blockVerdict : String :=
  "\x7b\"action\":\"block\",\"request_id\":\"r1\",\"block_response\":\x7b\"code\":466,\"content_type\":\"application/json\",\"body\":\"blocked\"\x7d\x7d"

/-- The decode of `blockVerdict`. -/
def rBlockT : OGInputResponse :=
  ⟨"block", "r1", none, none, .null, some ⟨466, "application/json", "blocked"⟩,
   none, none, none, none, none, none⟩

/-- An input verdict carrying both `session_id` and `restore_mapping`. -/
def bothVerdict : String :=
  "\x7b\"action\":\"pass\",\"request_id\":\"r2\",\"session_id\":\"s1\",\"restore_mapping\":\x7b\"k\":\"v\"\x7d\x7d"

/-- The decode of `bothVerdict`. -/
def rBothT : OGInputResponse :=
  ⟨"pass", "r2", some "s1", some [("k", "v")], .null, none, none, none, none,
   none, none, none⟩

/-- An input verdict with an unrecognized action. -/
def unknownInVerdict : String := "\x7b\"action\":\"noop\",\"request_id\":\"r3\"\x7d"

/-- The decode of `unknownInVerdict`. -/
def rUnknownInT : OGInputResponse :=
  ⟨"noop", "r3", none, none, .null, none, none, none, none, none, none, none⟩

/-- An output verdict with an unrecognized action. -/
def unknownOutVerdict : String := "\x7b\"action\":\"noop\"\x7d"

/-- The decode of `unknownOutVerdict`. -/
def rUnknownOutT : OGOutputResponse := ⟨"noop", none, none, none⟩

/-- An input block verdict with no `block_response` payload. -/
def blockNoPayloadVerdict : String := "\x7b\"action\":\"block\",\"request_id\":\"r4\"\x7d"

/-- The decode of `blockNoPayloadVerdict`. -/
def rBlockNoPayT : OGInputResponse :=
  ⟨"block", "r4", none, none, .null, none, none, none, none, none, none, none⟩

/-- Start of the concrete trace. -/
def h0T : Harness := initHarness (some cfgT)

/-- Event: plain request headers. -/
def evHdrT : HostEvent := .reqHeaders hdrPlain

/-- Event: complete request body carrying messages; dispatch accepted. -/
def evBodyT : HostEvent := .reqBody true (some reqBodyMsgs) true

/-- After request headers. -/
def traceH1 : Harness := stepConn h0T evHdrT

/-- After the request body dispatched the input check. -/
def traceH2 : Harness := stepConn traceH1 evBodyT

/-- Event: the input check returns `blockVerdict`. -/
def evC5T : HostEvent := .callResponse (some "200") blockVerdict true

/-- Reachable harness in which a local response has been sent. -/
def c5H : Harness := stepConn traceH2 evC5T

/-- Event: the input check returns `bothVerdict`. -/
def evC4T : HostEvent := .callResponse (some "200") bothVerdict true

/-- Reachable harness holding both `session_id` and `restore_mapping`. -/
def c4H : Harness := stepConn traceH2 evC4T

/-- A connector awaiting the input verdict. -/
def cWaitIn : OGConnector :=
  { initConnector (some cfgT) with state := .WaitingInputResponse }

/-- A pending proxy (alternate-model) response. -/
def pxT : ProxyResponse := ⟨200, "application/json", "PROXY"⟩

/-- A connector awaiting the output verdict with a pending proxy response. -/
def cWaitOutP : OGConnector :=
  { initConnector (some cfgT) with state := .WaitingOutputResponse,
                                   pending_proxy_response := some pxT }

/-- A connector awaiting the output verdict with no pending proxy response. -/
def cWaitOut : OGConnector :=
  { initConnector (some cfgT) with state := .WaitingOutputResponse }

/-- A connector whose buffered bodies are JSON without the rewritten fields. -/
def cC6 : OGConnector :=
  { initConnector (some cfgT) with request_body := "\x7b\"a\":1\x7d",
                                   response_body := "\x7b\"b\": 1\x7d" }

/-- A connector whose buffered bodies are not JSON. -/
def cC6bad : OGConnector :=
  { initConnector (some cfgT) with request_body := "not json",
                                   response_body := "nor this" }

/-- The result of handling `bothVerdict` on a fresh configured connector. -/
def hiBothT : OGConnector × List HostEffect × Action :=
  match handle_input_response (initConnector (some cfgT)) bothVerdict true with
  | some t => t
  | none => (initConnector none, [], .Continue)

end OG

namespace OG

/-- Invariants the host protocol maintains for every reachable harness:
once a local response has been sent the exchange is `Done`, no moderation
call is in flight and the request stream already ended; a call in flight
implies the request ended; a finished request implies headers were seen. -/
def HarnessInv (h : Harness) : Prop :=
  (h.conn.response_sent = true → h.conn.state = ConnectorState.Done) ∧
  (h.conn.response_sent = true → h.callInFlight = false) ∧
  (h.conn.response_sent = true → h.reqDone = true) ∧
  (h.callInFlight = true → h.reqDone = true) ∧
  (h.reqDone = true → h.hdrsSeen = true)

end OG

namespace OG

/-! ### Helper lemmas about the handlers -/

/-- If the plugin had not yet responded and `handle_input_response` leaves
the exchange with `response_sent = true`, the exchange is `Done` and no
successful dispatch is among the emitted effects. -/
theorem hir_sent (c : OGConnector) (body : String) (dOk : Bool)
    (t : OGConnector × List HostEffect × Action)
    (h : handle_input_response c body dOk = some t)
    (h0 : c.response_sent = false) (h1 : t.1.response_sent = true) :
    t.1.state = ConnectorState.Done ∧ dispatchSucceeded t.2.1 dOk = false := by
  simp only [handle_input_response, send_local_response, call_og_api] at h
  repeat' split at h
  all_goals (try (exact Option.noConfusion h))
  all_goals (cases h; simp_all [dispatchSucceeded, isDispatch])

/-- The analogue of `hir_sent` for `handle_output_response`, which never
dispatches. -/
theorem hor_sent (c : OGConnector) (body : String)
    (t : OGConnector × List HostEffect × Action)
    (h : handle_output_response c body = some t)
    (h0 : c.response_sent = false) (h1 : t.1.response_sent = true) :
    t.1.state = ConnectorState.Done ∧ t.2.1.any isDispatch = false := by
  simp only [handle_output_response, send_local_response] at h
  repeat' split at h
  all_goals (try (exact Option.noConfusion h))
  all_goals (cases h; simp_all [isDispatch])

/-- If the moderation-call callback makes `response_sent` true, it also made
the exchange `Done` and left no successful dispatch among its effects. -/
theorem ocr_sent (c : OGConnector) (st : Option String) (body : String) (dOk : Bool)
    (c' : OGConnector) (effs : List HostEffect)
    (h : on_http_call_response c st body dOk = some (c', effs))
    (h0 : c.response_sent = false) (h1 : c'.response_sent = true) :
    c'.state = ConnectorState.Done ∧ dispatchSucceeded effs dOk = false := by
  unfold on_http_call_response at h
  repeat' split at h
  all_goals try (cases h; simp_all [send_local_response, dispatchSucceeded, isDispatch])
  · rcases Option.map_eq_some'.mp h with ⟨t, ht, hx⟩
    cases hx
    exact hir_sent c body dOk t ht h0 h1
  · rcases Option.map_eq_some'.mp h with ⟨t, ht, hx⟩
    cases hx
    have hres := hor_sent _ body t ht (by simp [h0]) h1
    exact ⟨hres.1, by simp [dispatchSucceeded, hres.2]⟩

/-- `on_http_request_headers` never touches `response_sent` or the phase. -/
theorem reqHdr_preserve (c : OGConnector) (hdr : RequestHeadersEvent) :
    (on_http_request_headers c hdr).1.response_sent = c.response_sent ∧
    (on_http_request_headers c hdr).1.state = c.state := by
  unfold on_http_request_headers
  repeat' split
  all_goals simp

/-- `on_http_request_body` never touches `response_sent`. -/
theorem reqBody_preserve (c : OGConnector) (eos : Bool) (buf : Option String) (dOk : Bool)
    (t : OGConnector × List HostEffect × DataAction)
    (h : on_http_request_body c eos buf dOk = some t) :
    t.1.response_sent = c.response_sent := by
  simp only [on_http_request_body, call_og_api] at h
  repeat' split at h
  all_goals (try (exact Option.noConfusion h))
  all_goals (cases h; simp_all)

/-- A request-body chunk before the end of stream emits no effects. -/
theorem reqBody_nodisp (c : OGConnector) (buf : Option String) (dOk : Bool)
    (t : OGConnector × List HostEffect × DataAction)
    (h : on_http_request_body c false buf dOk = some t) :
    t.2.1 = [] := by
  simp only [on_http_request_body] at h
  repeat' split at h
  all_goals (try (exact Option.noConfusion h))
  all_goals (cases h; simp_all)

/-- `on_http_response_headers` never changes the exchange state. -/
theorem rspHdr_id (c : OGConnector) : (on_http_response_headers c).1 = c := by
  unfold on_http_response_headers
  split <;> rfl

/-- After a local response was sent, response headers are passed through
with no effects. -/
theorem rspHdr_sent (c : OGConnector) (hs : c.response_sent = true) :
    on_http_response_headers c = (c, [], .Continue) := by
  unfold on_http_response_headers
  simp [hs]

/-- After a local response was sent, response-body chunks are passed through
unchanged with no effects. -/
theorem rspBody_sent (c : OGConnector) (eos : Bool) (buf : Option String) (dOk : Bool)
    (hs : c.response_sent = true) :
    on_http_response_body c eos buf dOk = some (c, [], .Continue) := by
  unfold on_http_response_body
  simp [hs]

/-- `on_http_response_body` never touches `response_sent`. -/
theorem rspBody_preserve (c : OGConnector) (eos : Bool) (buf : Option String) (dOk : Bool)
    (t : OGConnector × List HostEffect × DataAction)
    (h : on_http_response_body c eos buf dOk = some t) :
    t.1.response_sent = c.response_sent := by
  simp only [on_http_response_body, call_og_api] at h
  repeat' split at h
  all_goals (try (exact Option.noConfusion h))
  all_goals (cases h; simp_all)

/-- Every reachable harness satisfies `HarnessInv`. -/
theorem reachable_inv (h : Harness) (hr : Reachable h) : HarnessInv h := by
  induction hr with
  | init cfg =>
    exact ⟨by simp [initHarness, initConnector], by simp [initHarness, initConnector],
      by simp [initHarness, initConnector], by simp [initHarness], by simp [initHarness]⟩
  | step g ev g' effs hg hallow hstep ih =>
    obtain ⟨i1, i2, i3, i4, i5⟩ := ih
    cases ev with
    | reqHeaders hdr =>
      simp only [stepHarness] at hstep
      cases hstep
      have hp1 := (reqHdr_preserve g.conn hdr).1
      have hp2 := (reqHdr_preserve g.conn hdr).2
      exact ⟨fun hx => by rw [hp2]; exact i1 (by rw [← hp1]; exact hx),
             fun hx => i2 (by rw [← hp1]; exact hx),
             fun hx => i3 (by rw [← hp1]; exact hx),
             i4, fun _ => rfl⟩
    | reqBody eos buf dOk =>
      obtain ⟨ha1, ha2⟩ := hallow
      simp only [stepHarness] at hstep
      rcases Option.map_eq_some'.mp hstep with ⟨t, ht, hx⟩
      cases hx
      have hrs := reqBody_preserve g.conn eos buf dOk t ht
      have hnosent : t.1.response_sent = true → False := by
        intro hx
        rw [hrs] at hx
        have hrd := i3 hx
        rw [ha2] at hrd
        exact Bool.noConfusion hrd
      refine ⟨fun hx => absurd hx (fun hh => hnosent hh),
              fun hx => absurd hx (fun hh => hnosent hh),
              fun hx => absurd hx (fun hh => hnosent hh), ?_, fun _ => ha1⟩
      intro hx
      cases heos : eos with
      | true => simp [heos]
      | false =>
        subst heos
        have hnil := reqBody_nodisp g.conn buf dOk t ht
        rw [hnil] at hx
        simp only [dispatchSucceeded, List.any_nil, Bool.false_and, Bool.or_false] at hx
        have hrd := i4 hx
        rw [ha2] at hrd
        exact Bool.noConfusion hrd
    | rspHeaders =>
      simp only [stepHarness] at hstep
      cases hstep
      rw [rspHdr_id]
      exact ⟨i1, i2, i3, i4, i5⟩
    | rspBody eos buf dOk =>
      simp only [stepHarness] at hstep
      rcases Option.map_eq_some'.mp hstep with ⟨t, ht, hx⟩
      cases hx
      have hrs := rspBody_preserve g.conn eos buf dOk t ht
      cases hsent : g.conn.response_sent with
      | true =>
        rw [rspBody_sent g.conn eos buf dOk hsent] at ht
        cases ht
        refine ⟨fun _ => i1 hsent, ?_, fun _ => i3 hsent, fun _ => hallow, fun _ => i5 hallow⟩
        intro _
        simp only [dispatchSucceeded, List.any_nil, Bool.false_and, Bool.or_false]
        exact i2 hsent
      | false =>
        have hnosent : t.1.response_sent = true → False := by
          intro hx
          rw [hrs, hsent] at hx
          exact Bool.noConfusion hx
        exact ⟨fun hx => absurd hx (fun hh => hnosent hh),
               fun hx => absurd hx (fun hh => hnosent hh),
               fun hx => absurd hx (fun hh => hnosent hh),
               fun _ => hallow, fun _ => i5 hallow⟩
    | callResponse st body dOk =>
      simp only [stepHarness] at hstep
      rcases Option.map_eq_some'.mp hstep with ⟨t, ht, hx⟩
      cases hx
      have hres0 : g.conn.response_sent = false := by
        cases hsent : g.conn.response_sent with
        | false => rfl
        | true =>
          have hcf := i2 hsent
          rw [hallow] at hcf
          exact Bool.noConfusion hcf
      refine ⟨?_, ?_, fun _ => i4 hallow, fun _ => i4 hallow, i5⟩
      · intro hx
        exact (ocr_sent g.conn st body dOk t.1 t.2 ht hres0 hx).1
      · intro hx
        exact (ocr_sent g.conn st body dOk t.1 t.2 ht hres0 hx).2

/-- A concrete trace: headers processed. -/
theorem traceH1_reach : Reachable traceH1 :=
  Reachable.step h0T evHdrT traceH1 (stepEffs h0T evHdrT) (Reachable.init (some cfgT)) rfl rfl

/-- A concrete trace: request body processed, input check in flight. -/
theorem traceH2_reach : Reachable traceH2 :=
  Reachable.step traceH1 evBodyT traceH2 (stepEffs traceH1 evBodyT) traceH1_reach ⟨rfl, rfl⟩ rfl

/-- A concrete trace reaching a sent local block response. -/
theorem c5H_reach : Reachable c5H :=
  Reachable.step traceH2 evC5T c5H (stepEffs traceH2 evC5T) traceH2_reach rfl rfl

end OG

namespace OG

/-! ### Claim theorems -/

/-- Claim C1 (amended): on an input-phase moderation failure the plugin
fails open but not uniformly: a non-2xx status resumes the original request
unmodified (no body change, no local response) and returns the phase to
`Initial`; a verdict body that fails to decode resumes the original request
unmodified but leaves the phase at `WaitingInputResponse`; a callback with
no `:status` header (dispatch timeout/failure) does nothing at all — the
request is not resumed. -/
theorem input_failure_fail_open (c : OGConnector) (s body : String) (dOk : Bool)
    (hst : c.state = .WaitingInputResponse) :
    (s ≠ "200" → on_http_call_response c (some s) body dOk =
      some ({ c with state := .Initial }, [.resumeHttpRequest])) ∧
    (on_http_call_response c none body dOk = some (c, [])) ∧
    ((parseJson body).bind decodeInputResponse = none →
      on_http_call_response c (some "200") body dOk = some (c, [.resumeHttpRequest])) := by
  refine ⟨fun hs => ?_, rfl, fun hdec => ?_⟩
  · unfold on_http_call_response
    rw [hst]
    simp [hs]
  · unfold on_http_call_response
    rw [hst]
    simp only [if_neg (by simp : ¬ ("200" : String) ≠ "200")]
    unfold handle_input_response
    rw [hdec]
    simp

/-- Claim C1, witness: the three failure behaviors at a concrete awaiting
connector (`"oops"` is not a decodable verdict). -/
theorem input_failure_fail_open_witness :
    on_http_call_response cWaitIn (some "503") "oops" true =
      some ({ cWaitIn with state := .Initial }, [.resumeHttpRequest]) ∧
    on_http_call_response cWaitIn none "oops" true = some (cWaitIn, []) ∧
    on_http_call_response cWaitIn (some "200") "oops" true =
      some (cWaitIn, [.resumeHttpRequest]) := by
  obtain ⟨h1, h2, h3⟩ := input_failure_fail_open cWaitIn "503" "oops" true rfl
  exact ⟨h1 (by decide), h2, h3 rfl⟩

/-- Claim C1, counterexample: after a decode failure the phase does NOT
return to `Initial` — the connector is returned unchanged, still in
`WaitingInputResponse`. -/
theorem input_decode_failure_keeps_waiting_state :
    on_http_call_response cWaitIn (some "200") "oops" true =
      some (cWaitIn, [.resumeHttpRequest]) ∧
    cWaitIn.state = ConnectorState.WaitingInputResponse ∧
    cWaitIn.state ≠ ConnectorState.Initial :=
  ⟨rfl, rfl, by decide⟩

/-- Claim C2: an input verdict `block`/`replace` carrying its payload sends
exactly the supplied status, content type and body to the client, clears
the buffered request body (the leading `setHttpRequestBody ""`), and moves
the exchange to the terminal `Done` state with `response_sent` set. -/
theorem input_block_replace_sends_payload (c : OGConnector) (body : String)
    (dOk : Bool) (r : OGInputResponse)
    (hdec : (parseJson body).bind decodeInputResponse = some r) :
    (∀ br : BlockResponse, r.action = "block" → r.block_response = some br →
      handle_input_response c body dOk =
        some ({ c with session_id := r.session_id, restore_mapping := r.restore_mapping,
                       response_sent := true, state := .Done },
              [.setHttpRequestBody "", .sendHttpResponse br.code br.content_type br.body],
              .Pause)) ∧
    (∀ rr : ReplaceResponse, r.action = "replace" → r.replace_response = some rr →
      handle_input_response c body dOk =
        some ({ c with session_id := r.session_id, restore_mapping := r.restore_mapping,
                       response_sent := true, state := .Done },
              [.setHttpRequestBody "", .sendHttpResponse rr.code rr.content_type rr.body],
              .Pause)) := by
  constructor
  · intro br ha hbr
    unfold handle_input_response
    rw [hdec]
    simp [ha, hbr, send_local_response]
  · intro rr ha hrr
    unfold handle_input_response
    rw [hdec]
    simp [ha, hrr, send_local_response]

/-- Claim C2, witness: the concrete block verdict produces exactly the
supplied 466 response and clears the request body. -/
theorem input_block_replace_sends_payload_witness :
    handle_input_response (initConnector (some cfgT)) blockVerdict true =
      some ({ initConnector (some cfgT) with
                session_id := none, restore_mapping := none,
                response_sent := true, state := .Done },
            [.setHttpRequestBody "", .sendHttpResponse 466 "application/json" "blocked"],
            .Pause) :=
  (input_block_replace_sends_payload (initConnector (some cfgT)) blockVerdict true
    rBlockT rfl).1 ⟨466, "application/json", "blocked"⟩ rfl rfl

/-- Claim C3: on an output-phase moderation failure (non-2xx status or a
verdict body that fails to decode), a stored pending proxy response is
relayed unmodified as the final response, otherwise the original upstream
response is resumed unmodified; in all four combinations the exchange ends
in `Done`. -/
theorem output_failure_relays_pending_or_resumes (c : OGConnector) (s body : String)
    (dOk : Bool) (hst : c.state = .WaitingOutputResponse) :
    (∀ p : ProxyResponse, c.pending_proxy_response = some p → s ≠ "200" →
      on_http_call_response c (some s) body dOk =
        some ({ c with pending_proxy_response := none, response_sent := true,
                       state := .Done },
              [.setHttpRequestBody "", .sendHttpResponse p.code p.content_type p.body])) ∧
    (c.pending_proxy_response = none → s ≠ "200" →
      on_http_call_response c (some s) body dOk =
        some ({ c with state := .Done }, [.resumeHttpResponse])) ∧
    ((parseJson body).bind decodeOutputResponse = none →
      (∀ p : ProxyResponse, c.pending_proxy_response = some p →
        on_http_call_response c (some "200") body dOk =
          some ({ c with state := .Done, pending_proxy_response := none,
                         response_sent := true },
                [.setHttpRequestBody "", .sendHttpResponse p.code p.content_type p.body])) ∧
      (c.pending_proxy_response = none →
        on_http_call_response c (some "200") body dOk =
          some ({ c with state := .Done }, [.resumeHttpResponse]))) := by
  refine ⟨fun p hp hs => ?_, fun hp hs => ?_, fun hdec => ⟨fun p hp => ?_, fun hp => ?_⟩⟩
  · unfold on_http_call_response
    rw [hst]
    simp [hs, hp, send_local_response]
  · unfold on_http_call_response
    rw [hst]
    simp [hs, hp]
  · unfold on_http_call_response
    rw [hst]
    simp only [if_neg (by simp : ¬ ("200" : String) ≠ "200")]
    unfold handle_output_response
    rw [hdec]
    simp [hp, send_local_response]
  · unfold on_http_call_response
    rw [hst]
    simp only [if_neg (by simp : ¬ ("200" : String) ≠ "200")]
    unfold handle_output_response
    rw [hdec]
    simp [hp]

/-- Claim C3, witness: the four failure combinations at concrete awaiting
connectors with and without the pending proxy response `pxT`. -/
theorem output_failure_relays_pending_or_resumes_witness :
    on_http_call_response cWaitOutP (some "503") "oops" true =
      some ({ cWaitOutP with
                pending_proxy_response := none, response_sent := true,
                state := .Done },
            [.setHttpRequestBody "", .sendHttpResponse 200 "application/json" "PROXY"]) ∧
    on_http_call_response cWaitOut (some "503") "oops" true =
      some ({ cWaitOut with state := .Done }, [.resumeHttpResponse]) ∧
    on_http_call_response cWaitOutP (some "200") "oops" true =
      some ({ cWaitOutP with
                state := .Done, pending_proxy_response := none,
                response_sent := true },
            [.setHttpRequestBody "", .sendHttpResponse 200 "application/json" "PROXY"]) ∧
    on_http_call_response cWaitOut (some "200") "oops" true =
      some ({ cWaitOut with state := .Done }, [.resumeHttpResponse]) := by
  refine ⟨?_, ?_, ?_, ?_⟩
  · exact (output_failure_relays_pending_or_resumes cWaitOutP "503" "oops" true rfl).1
      pxT rfl (by decide)
  · exact (output_failure_relays_pending_or_resumes cWaitOut "503" "oops" true rfl).2.1
      rfl (by decide)
  · exact ((output_failure_relays_pending_or_resumes cWaitOutP "503" "oops" true rfl).2.2
      rfl).1 pxT rfl
  · exact ((output_failure_relays_pending_or_resumes cWaitOut "503" "oops" true rfl).2.2
      rfl).2 rfl

end OG

namespace OG

/-- Claim C4 (amended): the connector stores exactly the `session_id` and
`restore_mapping` supplied by the decoded input verdict — both may be set
at the same time — and the output-check envelope forwards both stored
fields (precedence between them is left to the moderation service). -/
theorem verdict_restore_fields_stored (c cc : OGConnector) (body content : String)
    (dOk : Bool) (r : OGInputResponse) (cfg : OGConnectorConfig)
    (t : OGConnector × List HostEffect × Action)
    (hdec : (parseJson body).bind decodeInputResponse = some r)
    (h : handle_input_response c body dOk = some t)
    (hcfg : cc.config = some cfg) :
    (t.1.session_id = r.session_id ∧ t.1.restore_mapping = r.restore_mapping) ∧
    build_output_request_record cc content =
      some ⟨content, cc.session_id, cc.restore_mapping,
            (if cfg.application_id = "" then none else some cfg.application_id),
            cc.input_messages⟩ := by
  constructor
  · unfold handle_input_response at h
    rw [hdec] at h
    simp only [send_local_response] at h
    repeat' split at h
    all_goals simp_all
    all_goals (cases h; exact ⟨rfl, rfl⟩)
  · simp [build_output_request_record, hcfg]

/-- Claim C4, witness: processing `bothVerdict` stores both fields and the
output envelope built from the resulting reachable connector carries both. -/
theorem verdict_restore_fields_stored_witness :
    (hiBothT.1.session_id = rBothT.session_id ∧
     hiBothT.1.restore_mapping = rBothT.restore_mapping) ∧
    build_output_request_record c4H.conn "x" =
      some ⟨"x", c4H.conn.session_id, c4H.conn.restore_mapping,
            (if cfgT.application_id = "" then none else some cfgT.application_id),
            c4H.conn.input_messages⟩ :=
  verdict_restore_fields_stored (initConnector (some cfgT)) c4H.conn bothVerdict "x"
    true rBothT cfgT hiBothT rfl rfl rfl

/-- Claim C4, counterexample: a reachable exchange state in which BOTH
`session_id` and `restore_mapping` are set at once, refuting the claimed
mutual exclusion. -/
theorem both_restore_fields_set_reachable :
    Reachable c4H ∧ c4H.conn.session_id = some "s1" ∧
      c4H.conn.restore_mapping = some [("k", "v")] :=
  ⟨Reachable.step traceH2 evC4T c4H (stepEffs traceH2 evC4T) traceH2_reach rfl rfl,
   rfl, rfl⟩

/-- Claim C5: for every reachable exchange whose `response_sent` flag is
true, every host callback the protocol can still deliver leaves the
exchange state unchanged and performs no host call at all (in particular it
sends no second response), so the flag transitions false→true at most
once. -/
theorem response_sent_blocks_later_callbacks (h : Harness) (hr : Reachable h)
    (hsent : h.conn.response_sent = true) (ev : HostEvent) (hallow : eventAllowed h ev)
    (h' : Harness) (effs : List HostEffect) (hstep : stepHarness h ev = some (h', effs)) :
    h'.conn = h.conn ∧ effs = [] := by
  obtain ⟨i1, i2, i3, i4, i5⟩ := reachable_inv h hr
  cases ev with
  | reqHeaders hdr =>
    have hh := i5 (i3 hsent)
    rw [hallow] at hh
    exact Bool.noConfusion hh
  | reqBody eos buf dOk =>
    have hh := i3 hsent
    rw [hallow.2] at hh
    exact Bool.noConfusion hh
  | rspHeaders =>
    simp only [stepHarness, rspHdr_sent h.conn hsent] at hstep
    cases hstep
    exact ⟨rfl, rfl⟩
  | rspBody eos buf dOk =>
    simp only [stepHarness, rspBody_sent h.conn eos buf dOk hsent, Option.map_some'] at hstep
    cases hstep
    exact ⟨rfl, rfl⟩
  | callResponse st body dOk =>
    have hh := i2 hsent
    rw [hallow] at hh
    exact Bool.noConfusion hh

/-- Claim C5, witness: after the concrete trace that sent a local block
response, delivering response headers changes nothing and emits nothing. -/
theorem response_sent_blocks_later_callbacks_witness :
    c5H.conn = c5H.conn ∧ ([] : List HostEffect) = [] :=
  response_sent_blocks_later_callbacks c5H c5H_reach rfl .rspHeaders trivial c5H [] rfl

/-- Claim C6 (amended): both body-rewrite functions return the original
bytes unchanged (and never fail) when the body is not parseable JSON; when
the body parses but has no applicable field the output is a
re-serialization of the parsed JSON, so the bytes are not in general the
original ones (and `rebuild_request_body` inserts the `messages` field). -/
theorem rewrite_unparseable_returns_original (c : OGConnector) (msgs : List Json)
    (content : String) (hreq : parseJson c.request_body = none)
    (hrsp : parseJson c.response_body = none) :
    rebuild_request_body c msgs = some c.request_body ∧
    rebuild_response_body c content = some c.response_body := by
  unfold rebuild_request_body rebuild_response_body
  rw [hreq, hrsp]
  exact ⟨rfl, rfl⟩

/-- Claim C6, witness: unparseable request and response bodies come back
untouched. -/
theorem rewrite_unparseable_returns_original_witness :
    rebuild_request_body cC6bad [] = some cC6bad.request_body ∧
    rebuild_response_body cC6bad "x" = some cC6bad.response_body :=
  rewrite_unparseable_returns_original cC6bad [] "x" rfl rfl

/-- Claim C6, counterexample: with no applicable field present the rewrite
functions do NOT return the original bytes — `rebuild_request_body` inserts
a `messages` field and `rebuild_response_body` re-serializes (dropping the
whitespace of the original). -/
theorem rewrite_no_field_changes_bytes :
    rebuild_request_body cC6 [] = some "\x7b\"a\":1,\"messages\":[]\x7d" ∧
    cC6.request_body ≠ "\x7b\"a\":1,\"messages\":[]\x7d" ∧
    rebuild_response_body cC6 "x" = some "\x7b\"b\":1\x7d" ∧
    cC6.response_body ≠ "\x7b\"b\":1\x7d" :=
  ⟨rfl, by decide, rfl, by decide⟩

/-- Claim C7: a decoded verdict whose action is none of the known ones is
handled as `pass`: in the input phase the original request is resumed
unmodified with the phase reset to `Initial`; in the output phase with no
pending proxy response the original response is resumed unmodified. -/
theorem unknown_action_treated_as_pass (c : OGConnector) (body : String) (dOk : Bool)
    (rIn : OGInputResponse) (rOut : OGOutputResponse) :
    ((parseJson body).bind decodeInputResponse = some rIn →
     rIn.action ≠ "block" → rIn.action ≠ "replace" → rIn.action ≠ "anonymize" →
     rIn.action ≠ "proxy_response" → rIn.action ≠ "switch_private_model" →
     handle_input_response c body dOk =
       some ({ c with session_id := rIn.session_id, restore_mapping := rIn.restore_mapping,
                      state := .Initial }, [.resumeHttpRequest], .Continue)) ∧
    ((parseJson body).bind decodeOutputResponse = some rOut →
     rOut.action ≠ "block" → rOut.action ≠ "anonymize" → rOut.action ≠ "restore" →
     c.pending_proxy_response = none →
     handle_output_response c body = some (c, [.resumeHttpResponse], .Continue)) := by
  constructor
  · intro hdec h1 h2 h3 h4 h5
    unfold handle_input_response
    rw [hdec]
    simp [h1, h2, h3, h4, h5]
  · intro hdec h1 h2 h3 hp
    unfold handle_output_response
    rw [hdec]
    simp [h1, h2, h3, hp]

/-- Claim C7, witness: the concrete `"noop"` verdicts pass through both
phases unmodified. -/
theorem unknown_action_treated_as_pass_witness :
    handle_input_response (initConnector (some cfgT)) unknownInVerdict true =
      some ({ initConnector (some cfgT) with
              session_id := none, restore_mapping := none, state := .Initial },
            [.resumeHttpRequest], .Continue) ∧
    handle_output_response (initConnector (some cfgT)) unknownOutVerdict =
      some (initConnector (some cfgT), [.resumeHttpResponse], .Continue) := by
  constructor
  · exact (unknown_action_treated_as_pass (initConnector (some cfgT)) unknownInVerdict
      true rUnknownInT rUnknownOutT).1 rfl (by decide) (by decide) (by decide)
      (by decide) (by decide)
  · exact (unknown_action_treated_as_pass (initConnector (some cfgT)) unknownOutVerdict
      true rUnknownInT rUnknownOutT).2 rfl (by decide) (by decide) (by decide) rfl

/-- Claim C8 (amended): with configuration present, the request-headers
handler strips `content-length` only when no bypass credential header is
present (and then stores the consumer id and stops iteration); when the
bypass header is present it marks the exchange bypassed and strips only
the bypass header — `content-length` is left intact. -/
theorem request_headers_strip_behavior (c : OGConnector) (hdr : RequestHeadersEvent)
    (cfg : OGConnectorConfig) (hcfg : c.config = some cfg) :
    (∀ tok, hdr.bypass_token = some tok →
      on_http_request_headers c hdr =
        ({ c with bypassed := true },
         [.setHttpRequestHeader "X-OG-Bypass-Token" none], .Continue)) ∧
    (hdr.bypass_token = none →
      on_http_request_headers c hdr =
        ({ c with consumer_id := hdr.x_mse_consumer.orElse fun _ => hdr.x_mse_consumer_mixed },
         [.setHttpRequestHeader "content-length" none], .StopIteration)) := by
  constructor
  · intro tok htok
    unfold on_http_request_headers
    rw [hcfg, htok]
  · intro htok
    unfold on_http_request_headers
    rw [hcfg, htok]

/-- Claim C8, witness: both header behaviors at a concrete configured
connector. -/
theorem request_headers_strip_behavior_witness :
    on_http_request_headers (initConnector (some cfgT)) ⟨some "tok", none, none⟩ =
      ({ initConnector (some cfgT) with bypassed := true },
       [.setHttpRequestHeader "X-OG-Bypass-Token" none], .Continue) ∧
    on_http_request_headers (initConnector (some cfgT)) hdrPlain =
      ({ initConnector (some cfgT) with consumer_id := none },
       [.setHttpRequestHeader "content-length" none], .StopIteration) := by
  constructor
  · exact (request_headers_strip_behavior (initConnector (some cfgT))
      ⟨some "tok", none, none⟩ cfgT rfl).1 "tok" rfl
  · exact (request_headers_strip_behavior (initConnector (some cfgT)) hdrPlain
      cfgT rfl).2 rfl

/-- Claim C8, counterexample: when a bypass credential header is present the
handler does NOT strip `content-length` — the only header effect is the
removal of the bypass header itself. -/
theorem bypass_skips_content_length_strip :
    on_http_request_headers (initConnector (some cfgT)) ⟨some "tok", none, none⟩ =
      ({ initConnector (some cfgT) with bypassed := true },
       [.setHttpRequestHeader "X-OG-Bypass-Token" none], .Continue) ∧
    HostEffect.setHttpRequestHeader "content-length" none ∉
      (on_http_request_headers (initConnector (some cfgT)) ⟨some "tok", none, none⟩).2.1 :=
  ⟨rfl, by decide⟩

/-- Claim C9: an input `block` verdict with no `block_response` payload (or
`replace` with no `replace_response`) moves the exchange to `Done` and
returns `Pause` with no effects at all: nothing is sent to the client, the
buffered request body is not cleared, and `response_sent` stays as it was. -/
theorem block_without_payload_terminates_silently (c : OGConnector) (body : String)
    (dOk : Bool) (r : OGInputResponse)
    (hdec : (parseJson body).bind decodeInputResponse = some r) :
    (r.action = "block" → r.block_response = none →
      handle_input_response c body dOk =
        some ({ c with session_id := r.session_id, restore_mapping := r.restore_mapping,
                       state := .Done }, [], .Pause)) ∧
    (r.action = "replace" → r.replace_response = none →
      handle_input_response c body dOk =
        some ({ c with session_id := r.session_id, restore_mapping := r.restore_mapping,
                       state := .Done }, [], .Pause)) := by
  constructor
  · intro ha hbr
    unfold handle_input_response
    rw [hdec]
    simp [ha, hbr]
  · intro ha hrr
    unfold handle_input_response
    rw [hdec]
    simp [ha, hrr]

/-- Claim C9, witness: the concrete payload-less block verdict terminates
the exchange silently. -/
theorem block_without_payload_terminates_silently_witness :
    handle_input_response cWaitIn blockNoPayloadVerdict true =
      some ({ cWaitIn with
              session_id := none, restore_mapping := none,
              state := .Done }, [], .Pause) :=
  (block_without_payload_terminates_silently cWaitIn blockNoPayloadVerdict true
    rBlockNoPayT rfl).1 rfl rfl

/-- Claim C10: the API-key masking is NOT panic-free — `"€€€€"` has byte
length 12 (> 10), and the slice at byte 12 − 4 = 8 falls inside a
character, so `on_configure`'s masking panics (`none`); likewise
`call_og_api`'s masking on `"€€€€€"`; ASCII keys mask fine. -/
theorem mask_api_key_panics_on_multibyte :
    utf8Len "€€€€" = 12 ∧ mask_api_key_configure "€€€€" = none ∧
    mask_api_key_call "€€€€€" = none ∧
    mask_api_key_configure "abcdefghijkl" = some "abcdef...ijkl" := by
  decide

end OG
